import Mathlib

/-
Verification development for the KSAN approach-corridor display program
(`KSAN.py`).  The Python source is shallowly embedded: pure functions become
Lean functions, the process-wide mutable caches become explicit state records
passed in and out, machine floats are modelled as real numbers (for the
geometry) or rationals/integers (for times and pixel arithmetic), and
fallible HTTP fetches become `Option`-valued parameters (`none` = the
request raised an exception).
-/

set_option maxHeartbeats 1000000

noncomputable section

namespace KSAN

/-! ## Colors (`graphics.Color`, constants at the top of `KSAN.py`) -/

structure Color where
  r : ℕ
  g : ℕ
  b : ℕ
deriving DecidableEq

def WHITE : Color := ⟨255, 255, 255⟩
def GREEN : Color := ⟨0, 255, 0⟩
def YELLOW : Color := ⟨255, 255, 0⟩
def RED : Color := ⟨255, 0, 0⟩
def CYAN : Color := ⟨0, 255, 255⟩
def BLUE : Color := ⟨0, 128, 255⟩

/-! ## User geometry and filter constants -/

def P1_LAT : ℝ := 32.69079521369225
def P1_LON : ℝ := -117.00828355500153
def P2_LAT : ℝ := 32.72663595133696
def P2_LON : ℝ := -117.15939039340249
def CORRIDOR_HALF_MILES : ℝ := 0.5
def ALT_FT_MIN : ℝ := 200.0
def ALT_FT_MAX : ℝ := 4000.0
def REQUIRE_ALT : Bool := true

/-! ## Delay / temperature color mapping (`map_delay_to_color`, `temp_to_color`) -/

/-- `map_delay_to_color(d)` from the source; the delay is an `Optional[int]`. -/
def map_delay_to_color (d : Option ℤ) : Color :=
  match d with
  | none => GREEN
  | some d =>
    if d ≤ -5 then CYAN
    else if -4 ≤ d ∧ d ≤ 5 then GREEN
    else if d ≤ 20 then YELLOW
    else RED

/-- `temp_to_color(t)`; temperatures are floats, modelled as rationals. -/
def temp_to_color (t : Option ℚ) : Color :=
  match t with
  | none => WHITE
  | some t =>
    if t ≤ 60 then BLUE
    else if 65 ≤ t ∧ t ≤ 75 then GREEN
    else if t ≤ 80 then YELLOW
    else RED

/-- Python `int(q)`: truncation toward zero. -/
def py_int (q : ℚ) : ℤ := if q < 0 then ⌈q⌉ else ⌊q⌋

/-- Python `round(q)` (one-argument form): round half to even, returning an
integer. -/
def py_round (q : ℚ) : ℤ :=
  let f := ⌊q⌋
  let r := q - f
  if r < 1/2 then f
  else if 1/2 < r then f + 1
  else if f % 2 = 0 then f else f + 1

/-- `wind_dir_to_arrow(deg)`: `(int(deg)+180+22) % 360` indexed into the eight
arrows with `// 45`; non-numeric input gives the empty string. -/
def wind_dir_to_arrow (deg : Option ℚ) : String :=
  match deg with
  | some d =>
    let a : ℤ := (py_int d + 180 + 22) % 360
    List.getD ["↑", "↗", "→", "↘", "↓", "↙", "←", "↖"] (a.fdiv 45).toNat ""
  | none => ""

/-! ## Centered text placement (`clamp_center_x`) -/

/-- `clamp_center_x(width, text_w, margin)`: `(width - text_w) // 2` is Python
floor division, then clamped between the margins. -/
def clamp_center_x (width text_w margin : ℤ) : ℤ :=
  let centered := (width - text_w).fdiv 2
  max margin (min centered (width - margin - text_w))

/-- Modelled from the spec: `clamp(center, margin, viewportWidth − margin −
textWidth)` written as the generic three-argument clamp named by §4.4, for
comparison with `clamp_center_x` from the source. -/
def spec_clamp (v lo hi : ℤ) : ℤ := max lo (min v hi)

/-! ## Scrolling renderer core (`render_cycle_with_margins`)

The renderer's decisions that do not depend on the hardware canvas:
`viewport_w = matrix.width - 2*margin`, the fits test `w <= viewport_w`, the
span `w - viewport_w` for a non-fitting line, and the offset sequence of the
scroll phase (`off = 0; while off < span: draw(off); off += step_px` with
`step_px = 1`, followed by an unconditional `draw(span)`).  The wall-clock
cutoff (`time.time() < end_time`) is modelled by a `fuel` bound on the number
of loop iterations. -/

def viewport_w (matrix_width margin : ℤ) : ℤ := matrix_width - 2 * margin

/-- `l2_fits = (w2 <= viewport_w)` (same for line 3). -/
def line_fits (w vw : ℤ) : Bool := decide (w ≤ vw)

/-- `l2_span = 0 if l2_fits else (w2 - viewport_w)`. -/
def line_span (w vw : ℤ) : ℤ := if w ≤ vw then 0 else w - vw

/-- Offsets drawn by the `while off2 < l2_span` loop, starting at `off`,
advancing by `step_px = 1`, stopping when the offset reaches the span or the
time budget (`fuel`) runs out. -/
def scroll_loop (span : ℤ) : ℕ → ℤ → List ℤ
  | 0, _ => []
  | fuel + 1, off => if off < span then off :: scroll_loop span fuel (off + 1) else []

/-- The offsets drawn for one line's scroll phase: the loop offsets followed by
the unconditional `draw(l2_span)`. -/
def scroll_phase_offsets (span : ℤ) (fuel : ℕ) : List ℤ :=
  scroll_loop span fuel 0 ++ [span]

/-! ## Python string helpers -/

/-- Python `a or b` where `a` is an optional string: `None` and `""` are falsy. -/
def py_or_str (a : Option String) (b : String) : String :=
  match a with
  | some s => if s = "" then b else s
  | none => b

/-- Python `a or b` on two optional values (dict truthiness modelled as
presence). -/
def py_or_opt {α : Type} (a b : Option α) : Option α :=
  match a with
  | some x => some x
  | none => b

/-- Python `s.lower()` (character-wise; the data handled here is ASCII). -/
def str_lower (s : String) : String := String.mk (s.toList.map Char.toLower)

/-- Python `s.upper()`. -/
def str_upper (s : String) : String := String.mk (s.toList.map Char.toUpper)

/-- Python `s[:n]`. -/
def str_take (s : String) (n : ℕ) : String := String.mk (s.toList.take n)

/-- Python `s.strip()`: whitespace removed from both ends. -/
def str_strip (s : String) : String :=
  String.mk (((s.toList.dropWhile Char.isWhitespace).reverse.dropWhile
    Char.isWhitespace).reverse)

/-- Whether `needle` occurs at the start of `hay` (character lists). -/
def listStarts : List Char → List Char → Bool
  | _, [] => true
  | [], _ :: _ => false
  | h :: t, n :: m => (h == n) && listStarts t m

/-- Python `needle in hay` for character lists. -/
def containsSub (hay needle : List Char) : Bool :=
  match hay with
  | [] => needle.isEmpty
  | _ :: rest => listStarts hay needle || containsSub rest needle

/-- Python `needle in hay` on strings. -/
def str_has (hay needle : String) : Bool := containsSub hay.toList needle.toList

/-- Hex digit value, as accepted by Python `int(_, 16)`. -/
def hexVal (c : Char) : Option ℕ :=
  if '0' ≤ c ∧ c ≤ '9' then some (c.toNat - 48)
  else if 'a' ≤ c ∧ c ≤ 'f' then some (c.toNat - 87)
  else if 'A' ≤ c ∧ c ≤ 'F' then some (c.toNat - 55)
  else none

/-- `int(s[i:i+2], 16)` for a two-character slice. -/
def hexPair (a b : Char) : Option ℕ :=
  match hexVal a, hexVal b with
  | some x, some y => some (16 * x + y)
  | _, _ => none

/-- `_hex_to_color(s, default)`: strip whitespace, strip leading `#`, require
length 6 or 8, parse the first three byte pairs; any failure (including the
`except` clause) yields the default. -/
def hex_to_color (s : Option String) (dflt : Color) : Color :=
  match s with
  | none => dflt
  | some s =>
    if s = "" then dflt
    else
      let cs := (str_strip s).toList.dropWhile (· == '#')
      if cs.length = 6 ∨ cs.length = 8 then
        match cs with
        | c0 :: c1 :: c2 :: c3 :: c4 :: c5 :: _ =>
          match hexPair c0 c1, hexPair c2 c3, hexPair c4 c5 with
          | some r, some g, some b => ⟨r, g, b⟩
          | _, _, _ => dflt
        | _ => dflt
      else dflt

/-! ## Padres sports source (`fetch_padres_score_lines`)

The ESPN scoreboard JSON is embedded as records: every dict lookup that can
be absent becomes an `Option` field.  Scores arrive as strings and are parsed
with `int(.. or 0)`; the parsed value is modelled directly as `Option ℤ` with
default `0`.  The network layer is a parameter: `some events` is the
concatenated event list of the attempted dates, `none` means the request (or
parse) raised and the `except` branch runs. -/

/-- The `{"state": .., "detail": ..}` object under a status block's `"type"`. -/
structure StatusType where
  state : Option String
  detail : Option String
deriving DecidableEq

/-- A `"status"` block; `stype` is its `"type"` entry. -/
structure StatusBlock where
  stype : Option StatusType
deriving DecidableEq

/-- A `"team"` object. -/
structure Team where
  displayName : Option String
  name : Option String
  abbreviation : Option String
  shortDisplayName : Option String
  color : Option String
deriving DecidableEq

/-- A competitor: its `"team"` object and its `"score"` (string in the JSON,
already parsed here; `none` or empty parse to the default `0`). -/
structure Competitor where
  team : Option Team
  score : Option ℤ
deriving DecidableEq

/-- One entry of `"competitions"`. -/
structure Competition where
  status : Option StatusBlock
  competitors : List Competitor
deriving DecidableEq

/-- One entry of `"events"`. -/
structure Event where
  status : Option StatusBlock
  competitions : List Competition
deriving DecidableEq

/-- `is_live(status_block)`: false on a missing block, otherwise the lowercased
`type.state` must be one of `in`, `inprogress`, `live`. -/
def is_live (sb : Option StatusBlock) : Bool :=
  match sb with
  | none => false
  | some b =>
    let t := b.stype.getD ⟨none, none⟩
    let st := str_lower (t.state.getD "")
    (st == "in") || (st == "inprogress") || (st == "live")

/-- `team_is_padres(team_obj)`. -/
def team_is_padres (tm : Team) : Bool :=
  let nm := str_lower (py_or_str tm.displayName (py_or_str tm.name ""))
  let ab := str_upper (tm.abbreviation.getD "")
  let sh := str_lower (tm.shortDisplayName.getD "")
  str_has nm "padres" || str_has sh "padres" || (ab == "SD")

/-- `team_abbr(team_obj)`. -/
def team_abbr (tm : Team) : String :=
  str_upper (py_or_str tm.abbreviation
    (py_or_str tm.shortDisplayName (py_or_str tm.displayName "")))

/-- `team_color(team_obj)`. -/
def team_color (tm : Team) : Color := hex_to_color tm.color WHITE

/-- The six-field result cached and returned for a live, tied-or-winning
Padres game (the `True, top, bottom, corner, padres_color, opp_color` tuple). -/
structure GameLines where
  top : String
  bottom : String
  corner : String
  top_color : Color
  bottom_color : Color
deriving DecidableEq

/-- The empty team dict used by `teams[i].get("team") or {}`. -/
def emptyTeam : Team := ⟨none, none, none, none, none⟩

/-- The body of the `for ev in events` loop for one event: `None` corresponds
to every `continue`, `some` to the `return True, ...` path. -/
def event_lines (ev : Event) : Option GameLines :=
  let comp := ev.competitions.headD ⟨none, []⟩
  if !(is_live ev.status || is_live comp.status) then none
  else
    match comp.competitors with
    | [cA, cB] =>
      let tA := cA.team.getD emptyTeam
      let tB := cB.team.getD emptyTeam
      if !(team_is_padres tA || team_is_padres tB) then none
      else
        let sA := cA.score.getD 0
        let sB := cB.score.getD 0
        let aA := team_abbr tA
        let aB := team_abbr tB
        let ccA := team_color tA
        let ccB := team_color tB
        let padres_is_A := team_is_padres tA
        let padres_score := if padres_is_A then sA else sB
        let opp_score := if padres_is_A then sB else sA
        let padres_abbr := if padres_is_A then aA else aB
        let opp_abbr := if padres_is_A then aB else aA
        let padres_color := if padres_is_A then ccA else ccB
        let opp_color := if padres_is_A then ccB else ccA
        if padres_score < opp_score then none
        else
          let t := ((py_or_opt ev.status comp.status).getD ⟨none⟩).stype.getD ⟨none, none⟩
          let detail := str_lower (t.detail.getD "")
          let half := if str_has detail "top" then "T"
            else if str_has detail "bot" || str_has detail "bottom" then "B" else ""
          let num := String.mk (detail.toList.filter Char.isDigit)
          let corner := if half ++ num = "" then "Live" else half ++ num
          let top_line := str_take (padres_abbr ++ " " ++ toString padres_score) 32
          let bottom_line := str_take (opp_abbr ++ " " ++ toString opp_score) 32
          some ⟨top_line, bottom_line, corner, padres_color, opp_color⟩
    | _ => none

/-- The event scan: the first event that produces lines wins. -/
def scan_events : List Event → Option GameLines
  | [] => none
  | ev :: rest =>
    match event_lines ev with
    | some g => some g
    | none => scan_events rest

/-- The `_padres_cache` dict. -/
structure PadresCache where
  ts : ℤ
  have_game : Bool
  top : String
  bottom : String
  corner : String
  top_color : Color
  bottom_color : Color
deriving DecidableEq

def PADRES_CACHE_TTL : ℤ := 30

/-- The result tuple of `fetch_padres_score_lines`. -/
structure SportsOut where
  have_game : Bool
  top : String
  bottom : String
  corner : String
  top_color : Color
  bottom_color : Color
deriving DecidableEq

/-- `fetch_padres_score_lines()` with the cache and clock made explicit.
`fetch = some evs` hands over the scoreboard events of the attempted dates;
`fetch = none` is the `except` path.  Returns the result tuple and the new
cache contents. -/
def fetch_padres_score_lines (now : ℤ) (cache : PadresCache)
    (fetch : Option (List Event)) : SportsOut × PadresCache :=
  if now - cache.ts < PADRES_CACHE_TTL then
    (⟨cache.have_game, cache.top, cache.bottom, cache.corner,
      cache.top_color, cache.bottom_color⟩, cache)
  else
    match fetch with
    | some evs =>
      match scan_events evs with
      | some g =>
        (⟨true, g.top, g.bottom, g.corner, g.top_color, g.bottom_color⟩,
         ⟨now, true, g.top, g.bottom, g.corner, g.top_color, g.bottom_color⟩)
      | none =>
        (⟨false, "", "", "", WHITE, WHITE⟩, ⟨now, false, "", "", "", WHITE, WHITE⟩)
    | none =>
      (⟨false, "", "", "", WHITE, WHITE⟩, ⟨now, false, "", "", "", WHITE, WHITE⟩)

/-! ## Weather source (`fetch_weather_simple`) -/

def WEATHER_CACHE_TTL : ℤ := 900

/-- The `_weather_simple_cache` dict. -/
structure WCacheState where
  ts : ℤ
  temp_text : String
  temp_color : Color
  wind_text : String
deriving DecidableEq

/-- The parsed `"current"` object of the WeatherAPI response; a field is
`some q` exactly when `isinstance(.., (int, float))` holds. -/
structure WeatherCur where
  temp_f : Option ℚ
  wind_mph : Option ℚ
  wind_degree : Option ℚ
deriving DecidableEq

/-- `fetch_weather_simple()` with the cache and clock explicit.  `fr = some
cur` is a successful HTTP fetch+parse, `fr = none` the `except` path.  Returns
the `(temp_text, temp_color, wind_text)` triple, the new cache contents, and
whether the source was (re-)fetched. -/
def fetch_weather_simple (now : ℤ) (st : WCacheState) (fr : Option WeatherCur) :
    (String × Color × String) × WCacheState × Bool :=
  if now - st.ts < WEATHER_CACHE_TTL ∧ st.temp_text ≠ "" then
    ((st.temp_text, st.temp_color, st.wind_text), st, false)
  else
    match fr with
    | some cur =>
      let tt := match cur.temp_f with
        | some t => toString (py_round t) ++ "°F"
        | none => "—"
      let tc := match cur.temp_f with
        | some t => temp_to_color (some t)
        | none => WHITE
      let wt := match cur.wind_mph with
        | some w => toString (py_round w) ++ "mph " ++ wind_dir_to_arrow cur.wind_degree
        | none => ""
      ((tt, tc, wt), ⟨now, tt, tc, wt⟩, true)
    | none => (("—", WHITE, ""), st, true)

/-! ## Geometry (`to_local_xy`, `point_to_segment_dist_m`, `within_corridor`,
`altitude_ok`)

Floats are modelled as real numbers; `math.radians(x)` is `x * π / 180`,
`math.hypot(x, y)` is `Real.sqrt (x^2 + y^2)`. -/

open scoped Classical

/-- `to_local_xy(lat, lon, lat0)`. -/
def to_local_xy (lat lon lat0 : ℝ) : ℝ × ℝ :=
  (lon * (111320.0 * Real.cos (lat0 * Real.pi / 180)), lat * 111320.0)

/-- `point_to_segment_dist_m(lat, lon, a_lat, a_lon, b_lat, b_lon)`: distance
to the segment (projection parameter clamped to `[0,1]`) together with the
clamped parameter; degenerate segments (squared local length `≤ 1e-6`) give
the straight-line distance to `a` and `t = 0`. -/
def point_to_segment_dist_m (lat lon a_lat a_lon b_lat b_lon : ℝ) : ℝ × ℝ :=
  let lat0 := 0.5 * (a_lat + b_lat)
  let a := to_local_xy a_lat a_lon lat0
  let b := to_local_xy b_lat b_lon lat0
  let p := to_local_xy lat lon lat0
  let vx := b.1 - a.1
  let vy := b.2 - a.2
  let wx := p.1 - a.1
  let wy := p.2 - a.2
  let v2 := vx * vx + vy * vy
  if v2 ≤ 1e-6 then (Real.sqrt ((p.1 - a.1) ^ 2 + (p.2 - a.2) ^ 2), 0)
  else
    let t := max 0 (min 1 ((wx * vx + wy * vy) / v2))
    let cx := a.1 + t * vx
    let cy := a.2 + t * vy
    (Real.sqrt ((p.1 - cx) ^ 2 + (p.2 - cy) ^ 2), t)

/-- The projection parameter of the non-degenerate branch before the
`max(0.0, min(1.0, ..))` clamp: the subexpression `(wx*vx + wy*vy)/v2` of
`point_to_segment_dist_m`. -/
def proj_t_raw (lat lon a_lat a_lon b_lat b_lon : ℝ) : ℝ :=
  let lat0 := 0.5 * (a_lat + b_lat)
  let a := to_local_xy a_lat a_lon lat0
  let b := to_local_xy b_lat b_lon lat0
  let p := to_local_xy lat lon lat0
  let vx := b.1 - a.1
  let vy := b.2 - a.2
  let wx := p.1 - a.1
  let wy := p.2 - a.2
  let v2 := vx * vx + vy * vy
  (wx * vx + wy * vy) / v2

/-- The squared local length `v2` of the segment, as computed inside
`point_to_segment_dist_m`. -/
def seg_len2 (a_lat a_lon b_lat b_lon : ℝ) : ℝ :=
  let lat0 := 0.5 * (a_lat + b_lat)
  let a := to_local_xy a_lat a_lon lat0
  let b := to_local_xy b_lat b_lon lat0
  let vx := b.1 - a.1
  let vy := b.2 - a.2
  vx * vx + vy * vy

/-- `altitude_ok(alt)`. -/
def altitude_ok (alt : Option ℝ) : Prop :=
  match alt with
  | none => REQUIRE_ALT = false
  | some a => ALT_FT_MIN ≤ a ∧ a ≤ ALT_FT_MAX

/-- `within_corridor(lat, lon)`. -/
def within_corridor (lat lon : ℝ) : Prop :=
  let dt := point_to_segment_dist_m lat lon P1_LAT P1_LON P2_LAT P2_LON
  0 ≤ dt.2 ∧ dt.2 ≤ 1 ∧ dt.1 ≤ CORRIDOR_HALF_MILES * 1609.344

/-! ## Observation picking (`pick_best`) -/

/-- One aircraft sample as built by `fetch_live_scrape`. -/
structure Obs where
  lat : ℝ
  lon : ℝ
  alt_ft : Option ℝ
  fn : String
  fid : String

/-- The distance computed for an observation inside the `pick_best` loop. -/
def obs_dist (o : Obs) : ℝ :=
  (point_to_segment_dist_m o.lat o.lon P1_LAT P1_LON P2_LAT P2_LON).1

/-- An observation that survives both `continue` filters of `pick_best`. -/
def qualifies (o : Obs) : Prop :=
  altitude_ok o.alt_ft ∧ within_corridor o.lat o.lon

/-- The `for it in items` loop of `pick_best`, with the running `best` and
`best_d` explicit. -/
def pick_best_go : List Obs → Option Obs → ℝ → Option Obs
  | [], best, _ => best
  | it :: rest, best, best_d =>
    if altitude_ok it.alt_ft then
      if within_corridor it.lat it.lon then
        if obs_dist it < best_d then pick_best_go rest (some it) (obs_dist it)
        else pick_best_go rest best best_d
      else pick_best_go rest best best_d
    else pick_best_go rest best best_d

/-- `pick_best(items)`: `best, best_d = None, 1e12` then the loop. -/
def pick_best (items : List Obs) : Option Obs :=
  pick_best_go items none 1e12

/-! ## Main loop tick (`main`)

One iteration of the `while True` loop, with every network interaction a
parameter: the fresh observations `items`, the sports fetch outcome, the
weather fetch outcome, the enrichment details for the chosen aircraft and its
fetched delay.  Enrichment caching and the `line2`/`line3` text (aircraft
type and origin-airport names, which come from external data tables) do not
affect which payload kind is rendered and are not modelled. -/

/-- The enrichment fields that feed the identity line. -/
structure Details where
  callsign : Option String
  registration : Option String
deriving DecidableEq

/-- `ident = (extra.get("callsign") or best.get("fn") or
extra.get("registration") or "UNKNOWN").strip()`. -/
def ident_of (extra : Details) (fn : String) : String :=
  str_strip (py_or_str extra.callsign
    (py_or_str (some fn) (py_or_str extra.registration "UNKNOWN")))

/-- The payload rendered by one tick: `render_cycle_with_margins` for a
flight, `render_mlb_view` for a game, `render_cycle_with_margins` with the
`NO TRAFFIC` header for weather. -/
inductive DisplayPayload
  | flight (ident : String) (status_dot : Color)
  | sport (top bottom corner : String) (top_color bottom_color : Color)
  | weather (temp_text : String) (temp_color : Color) (wind_text : String)
deriving DecidableEq

def is_flight : DisplayPayload → Bool
  | .flight _ _ => true
  | _ => false

def is_sport : DisplayPayload → Bool
  | .sport _ _ _ _ _ => true
  | _ => false

def is_weather : DisplayPayload → Bool
  | .weather _ _ _ => true
  | _ => false

/-- One iteration of `main`'s loop body (the non-exceptional path): returns
the rendered payload, the two cache states afterwards, and whether the sports
and the weather source were queried this tick. -/
def tick (items : List Obs) (now : ℤ) (pc : PadresCache)
    (sfetch : Option (List Event)) (wst : WCacheState) (wfetch : Option WeatherCur)
    (extra : Details) (delay : Option ℤ) :
    DisplayPayload × PadresCache × WCacheState × Bool × Bool :=
  match pick_best items with
  | some best =>
    (.flight (ident_of extra best.fn) (map_delay_to_color delay), pc, wst, false, false)
  | none =>
    let sres := fetch_padres_score_lines now pc sfetch
    if sres.1.have_game then
      (.sport sres.1.top sres.1.bottom sres.1.corner sres.1.top_color sres.1.bottom_color,
       sres.2, wst, true, false)
    else
      let wres := fetch_weather_simple now wst wfetch
      (.weather wres.1.1 wres.1.2.1 wres.1.2.2, sres.2, wres.2.1, true, true)

/-! ## Concrete sample data for evaluating the model -/

def sd_team : Team := ⟨some "San Diego Padres", none, some "SD", some "Padres", none⟩

def lad_team : Team := ⟨some "Los Angeles Dodgers", none, some "LAD", some "Dodgers", none⟩

/-- A live status block with detail text `Top 5th`. -/
def live_status : Option StatusBlock := some ⟨some ⟨some "in", some "Top 5th"⟩⟩

/-- A live Padres-vs-Dodgers event with the given scores. -/
def padres_event (sd opp : ℤ) : Event :=
  ⟨live_status, [⟨none, [⟨some sd_team, some sd⟩, ⟨some lad_team, some opp⟩]⟩]⟩

/-! # Theorems -/

/-- Offsets produced by the scroll loop lie in `[off, span)`. -/
lemma scroll_loop_mem {span : ℤ} :
    ∀ (fuel : ℕ) (off o : ℤ), o ∈ scroll_loop span fuel off → off ≤ o ∧ o < span := by
  intro fuel
  induction fuel with
  | zero => intro off o h; simp [scroll_loop] at h
  | succ n ih =>
    intro off o h
    simp only [scroll_loop] at h
    split at h
    · rcases List.mem_cons.mp h with rfl | h2
      · exact ⟨le_refl _, by assumption⟩
      · have h3 := ih (off + 1) o h2
        exact ⟨by linarith [h3.1], h3.2⟩
    · simp at h

/-- C7: a line whose measured width equals the viewport width fits (the
comparison is `≤`); a line one pixel wider does not fit; a non-fitting line's
span is exactly `width − viewport`; and the scroll phase's offsets reach the
span and never exceed it, whatever the time budget. -/
theorem scroll_fit_and_span :
    (∀ vw : ℤ, line_fits vw vw = true) ∧
    (∀ vw : ℤ, line_fits (vw + 1) vw = false) ∧
    (∀ w vw : ℤ, line_fits w vw = false → line_span w vw = w - vw) ∧
    (∀ w vw : ℤ, line_fits w vw = false → ∀ fuel : ℕ,
      (∀ o ∈ scroll_phase_offsets (line_span w vw) fuel, o ≤ line_span w vw) ∧
      line_span w vw ∈ scroll_phase_offsets (line_span w vw) fuel) := by
  refine ⟨?_, ?_, ?_, ?_⟩
  · intro vw; simp [line_fits]
  · intro vw; simp [line_fits]
  · intro w vw h
    simp only [line_fits, decide_eq_false_iff_not] at h
    simp [line_span, h]
  · intro w vw h fuel
    constructor
    · intro o ho
      rcases List.mem_append.mp ho with h1 | h2
      · exact le_of_lt (scroll_loop_mem fuel 0 o h1).2
      · simp only [List.mem_singleton] at h2
        exact le_of_eq h2
    · exact List.mem_append.mpr (Or.inr (List.mem_singleton.mpr rfl))

/-- Witness for `scroll_fit_and_span` at width 61, viewport 60, fuel 3. -/
theorem scroll_fit_and_span_witness :
    (∀ o ∈ scroll_phase_offsets (line_span 61 60) 3, o ≤ line_span 61 60) ∧
    line_span 61 60 ∈ scroll_phase_offsets (line_span 61 60) 3 :=
  scroll_fit_and_span.2.2.2 61 60 (by decide) 3

/-- C8: `clamp_center_x` is the spec's clamp of the centered position, and at
display width 60, margin 2, text width 36 the centered position `12` already
lies inside the clamp bounds `[2, 22]`, so the result is 12. -/
theorem clamp_center_x_spec :
    (∀ w tw m : ℤ, clamp_center_x w tw m = spec_clamp ((w - tw).fdiv 2) m (w - m - tw)) ∧
    clamp_center_x 60 36 2 = 12 ∧
    ((60 - 36 : ℤ).fdiv 2 = 12 ∧ (2 : ℤ) ≤ 12 ∧ (12 : ℤ) ≤ 60 - 2 - 36) :=
  ⟨fun _ _ _ => rfl, by decide, by decide⟩

/-- C10: the status-dot color is a total function of the optional delay:
`None ↦ GREEN`, `d ≤ −5 ↦ CYAN`, `−4 ≤ d ≤ 5 ↦ GREEN`, `5 < d ≤ 20 ↦ YELLOW`,
`20 < d ↦ RED`; an undetermined delay gets the same green as an on-time one. -/
theorem delay_color_cases : ∀ d : ℤ,
    map_delay_to_color none = GREEN ∧
    (d ≤ -5 → map_delay_to_color (some d) = CYAN) ∧
    (-4 ≤ d → d ≤ 5 → map_delay_to_color (some d) = GREEN) ∧
    (5 < d → d ≤ 20 → map_delay_to_color (some d) = YELLOW) ∧
    (20 < d → map_delay_to_color (some d) = RED) ∧
    map_delay_to_color none = map_delay_to_color (some 0) := by
  intro d
  refine ⟨rfl, ?_, ?_, ?_, ?_, rfl⟩ <;>
    intros <;> simp only [map_delay_to_color] <;> split_ifs <;>
    first | rfl | (exfalso; omega)

/-- Witness for `delay_color_cases` at concrete delays. -/
theorem delay_color_cases_witness :
    map_delay_to_color (some (-7)) = CYAN ∧
    map_delay_to_color (some 3) = GREEN ∧
    map_delay_to_color (some 12) = YELLOW ∧
    map_delay_to_color (some 42) = RED ∧
    map_delay_to_color none = GREEN :=
  ⟨(delay_color_cases (-7)).2.1 (by decide),
   (delay_color_cases 3).2.2.1 (by decide) (by decide),
   (delay_color_cases 12).2.2.2.1 (by decide) (by decide),
   (delay_color_cases 42).2.2.2.2.1 (by decide),
   (delay_color_cases 0).1⟩

/-- A string with a nonempty suffix appended is nonempty. -/
lemma append_suffix_ne_empty (a b : String) (hb : b.length ≠ 0) : a ++ b ≠ "" := by
  intro h
  have hl := congrArg String.length h
  rw [String.length_append] at hl
  simp only [String.length_empty] at hl
  omega

/-- C5: with the weather TTL of 900 s, a read strictly within the TTL of a
state holding a nonempty cached value returns that value unchanged with no
fetch; a read at or past the TTL boundary fetches; and a successful stale
fetch stamps the new capture time and stores a nonempty `temp_text` (so later
fresh reads hit the cache). -/
theorem weather_cache_ttl_behavior :
    (∀ (now : ℤ) (st : WCacheState) (fr : Option WeatherCur),
      st.temp_text ≠ "" → now - st.ts < WEATHER_CACHE_TTL →
      fetch_weather_simple now st fr = ((st.temp_text, st.temp_color, st.wind_text), st, false)) ∧
    (∀ (now : ℤ) (st : WCacheState) (fr : Option WeatherCur),
      ¬ now - st.ts < WEATHER_CACHE_TTL → (fetch_weather_simple now st fr).2.2 = true) ∧
    (∀ (now : ℤ) (st : WCacheState) (cur : WeatherCur),
      ¬ now - st.ts < WEATHER_CACHE_TTL →
      (fetch_weather_simple now st (some cur)).2.1.ts = now ∧
      (fetch_weather_simple now st (some cur)).2.1.temp_text ≠ "") := by
  refine ⟨?_, ?_, ?_⟩
  · intro now st fr hne hlt
    rw [fetch_weather_simple.eq_def, if_pos ⟨hlt, hne⟩]
  · intro now st fr hge
    rw [fetch_weather_simple.eq_def, if_neg (fun hc => hge hc.1)]
    cases fr <;> rfl
  · intro now st cur hge
    rw [fetch_weather_simple.eq_def, if_neg (fun hc => hge hc.1)]
    refine ⟨rfl, ?_⟩
    cases htf : cur.temp_f with
    | none => simp [htf]
    | some t =>
      simp only [htf]
      exact append_suffix_ne_empty _ "°F" (by decide)

/-- Witness for `weather_cache_ttl_behavior`: fetched at `t0 = 0`, a read at
`t0 + 899` returns the cached value without fetching, a read at `t0 + 901`
fetches. -/
theorem weather_cache_ttl_behavior_witness :
    fetch_weather_simple 899 ⟨0, "72°F", GREEN, ""⟩ none =
      (("72°F", GREEN, ""), ⟨0, "72°F", GREEN, ""⟩, false) ∧
    (fetch_weather_simple 901 ⟨0, "72°F", GREEN, ""⟩ (some ⟨some 70, none, none⟩)).2.2 = true :=
  ⟨weather_cache_ttl_behavior.1 899 ⟨0, "72°F", GREEN, ""⟩ none (by decide) (by decide),
   weather_cache_ttl_behavior.2.1 901 ⟨0, "72°F", GREEN, ""⟩ (some ⟨some 70, none, none⟩) (by decide)⟩

/-- C6 counterexample: the sports cache is NOT left unchanged by a failed
re-fetch.  Starting from a cached live game captured at `ts = 0`, a failed
re-fetch at `now = 100` rewrites the slot: the timestamp becomes 100 and the
cached game is dropped. -/
theorem sports_cache_cleared_on_failed_fetch :
    (fetch_padres_score_lines 100 ⟨0, true, "SD 4", "LAD 3", "T5", WHITE, WHITE⟩ none).2.ts ≠ 0 ∧
    (fetch_padres_score_lines 100 ⟨0, true, "SD 4", "LAD 3", "T5", WHITE, WHITE⟩ none).2.have_game
      = false := by
  constructor <;> decide

/-- C6 as amended: on a failed re-fetch after TTL expiry, the weather cache is
left completely unchanged (stale value and original timestamp retained),
while the sports cache is overwritten with an empty no-game entry stamped at
the failure time. -/
theorem stale_refetch_failure_behavior :
    (∀ (now : ℤ) (st : WCacheState),
      ¬ (now - st.ts < WEATHER_CACHE_TTL ∧ st.temp_text ≠ "") →
      (fetch_weather_simple now st none).2.1 = st) ∧
    (∀ (now : ℤ) (pc : PadresCache), ¬ now - pc.ts < PADRES_CACHE_TTL →
      (fetch_padres_score_lines now pc none).2 = ⟨now, false, "", "", "", WHITE, WHITE⟩) := by
  constructor
  · intro now st h
    rw [fetch_weather_simple.eq_def, if_neg h]
  · intro now pc h
    rw [fetch_padres_score_lines.eq_def, if_neg h]

/-- Witness for `stale_refetch_failure_behavior` at concrete stale caches. -/
theorem stale_refetch_failure_behavior_witness :
    (fetch_weather_simple 1000 ⟨0, "72°F", GREEN, "5mph"⟩ none).2.1 = ⟨0, "72°F", GREEN, "5mph"⟩ ∧
    (fetch_padres_score_lines 50 ⟨0, true, "SD 4", "LAD 3", "T5", WHITE, WHITE⟩ none).2 =
      ⟨50, false, "", "", "", WHITE, WHITE⟩ :=
  ⟨stale_refetch_failure_behavior.1 1000 ⟨0, "72°F", GREEN, "5mph"⟩ (by decide),
   stale_refetch_failure_behavior.2 50 ⟨0, true, "SD 4", "LAD 3", "T5", WHITE, WHITE⟩ (by decide)⟩

/-- A boolean whose negation is not true is true. -/
lemma bool_not_bang (b : Bool) (h : ¬ (!b) = true) : b = true := by
  cases b
  · simp at h
  · rfl

/-- If the per-event loop body emits lines, the event passed the liveness test
and the tracked (Padres) side was tied or winning. -/
lemma event_lines_sound (ev : Event) (g : GameLines) (h : event_lines ev = some g) :
    (is_live ev.status || is_live (ev.competitions.headD ⟨none, []⟩).status) = true ∧
    ∃ cA cB, (ev.competitions.headD ⟨none, []⟩).competitors = [cA, cB] ∧
      (team_is_padres (cA.team.getD emptyTeam) || team_is_padres (cB.team.getD emptyTeam)) = true ∧
      (if team_is_padres (cA.team.getD emptyTeam)
       then cB.score.getD 0 ≤ cA.score.getD 0
       else cA.score.getD 0 ≤ cB.score.getD 0) := by
  simp only [event_lines] at h
  split at h
  · exact absurd h (by simp)
  · rename_i hlive
    split at h
    · rename_i cA cB heq
      split at h
      · exact absurd h (by simp)
      · rename_i hpad
        refine ⟨bool_not_bang _ hlive, cA, cB, heq, bool_not_bang _ hpad, ?_⟩
        cases hA : team_is_padres (cA.team.getD emptyTeam) with
        | true =>
          simp only [hA, if_true]
          simp only [hA] at h
          simp only [eq_self_iff_true, if_true] at h
          split at h
          · exact absurd h (by simp)
          · rename_i hscore; omega
        | false =>
          simp only [hA, Bool.false_eq_true, if_false]
          simp only [hA] at h
          simp only [Bool.false_eq_true, if_false] at h
          split at h
          · exact absurd h (by simp)
          · rename_i hscore; omega
    · exact absurd h (by simp)

/-- A successful scan result comes from some event of the list. -/
lemma scan_events_sound : ∀ (evs : List Event) (g : GameLines),
    scan_events evs = some g → ∃ ev ∈ evs, event_lines ev = some g := by
  intro evs
  induction evs with
  | nil => intro g h; simp [scan_events] at h
  | cons ev rest ih =>
    intro g h
    simp only [scan_events] at h
    cases hev : event_lines ev with
    | some g2 =>
      rw [hev] at h
      have h2 : some g2 = some g := h
      cases h2
      exact ⟨ev, List.mem_cons_self ev rest, hev⟩
    | none =>
      rw [hev] at h
      have h2 : scan_events rest = some g := h
      obtain ⟨e, he, hl⟩ := ih g h2
      exact ⟨e, List.mem_cons_of_mem _ he, hl⟩

/-- C3: a game is emitted only from an event that is live (lowercased status
state in `{in, inprogress, live}`) with the tracked team tied or winning;
a live 3–4 game is excluded, 4–3 and the 3–3 tie are included. -/
theorem sports_eligibility :
    (∀ (evs : List Event) (g : GameLines), scan_events evs = some g →
      ∃ ev ∈ evs,
        (is_live ev.status || is_live (ev.competitions.headD ⟨none, []⟩).status) = true ∧
        ∃ cA cB, (ev.competitions.headD ⟨none, []⟩).competitors = [cA, cB] ∧
          (team_is_padres (cA.team.getD emptyTeam) ||
            team_is_padres (cB.team.getD emptyTeam)) = true ∧
          (if team_is_padres (cA.team.getD emptyTeam)
           then cB.score.getD 0 ≤ cA.score.getD 0
           else cA.score.getD 0 ≤ cB.score.getD 0)) ∧
    (∀ sb : Option StatusBlock, is_live sb = true →
      ∃ b, sb = some b ∧
        (str_lower ((b.stype.getD ⟨none, none⟩).state.getD "") = "in" ∨
         str_lower ((b.stype.getD ⟨none, none⟩).state.getD "") = "inprogress" ∨
         str_lower ((b.stype.getD ⟨none, none⟩).state.getD "") = "live")) ∧
    scan_events [padres_event 3 4] = none ∧
    scan_events [padres_event 4 3] = some ⟨"SD 4", "LAD 3", "T5", WHITE, WHITE⟩ ∧
    scan_events [padres_event 3 3] = some ⟨"SD 3", "LAD 3", "T5", WHITE, WHITE⟩ := by
  refine ⟨?_, ?_, by decide, by decide, by decide⟩
  · intro evs g h
    obtain ⟨ev, hmem, hev⟩ := scan_events_sound evs g h
    exact ⟨ev, hmem, event_lines_sound ev g hev⟩
  · intro sb h
    cases sb with
    | none => simp [is_live] at h
    | some b =>
      refine ⟨b, rfl, ?_⟩
      have h2 := h
      simp only [is_live, Bool.or_eq_true, beq_iff_eq] at h2
      tauto

/-- Witness for `sports_eligibility`: the tie game it emits is live and
tied-or-winning. -/
theorem sports_eligibility_witness :
    ∃ ev ∈ [padres_event 3 3],
      (is_live ev.status || is_live (ev.competitions.headD ⟨none, []⟩).status) = true ∧
      ∃ cA cB, (ev.competitions.headD ⟨none, []⟩).competitors = [cA, cB] ∧
        (team_is_padres (cA.team.getD emptyTeam) ||
          team_is_padres (cB.team.getD emptyTeam)) = true ∧
        (if team_is_padres (cA.team.getD emptyTeam)
         then cB.score.getD 0 ≤ cA.score.getD 0
         else cA.score.getD 0 ≤ cB.score.getD 0) :=
  sports_eligibility.1 [padres_event 3 3] ⟨"SD 3", "LAD 3", "T5", WHITE, WHITE⟩ (by decide)

/-- C1: in a tick, a successful pick renders a Flight payload and neither the
sports nor the weather source is queried; otherwise the sports cache is
queried, and the weather source only when it reports no eligible game.  Every
tick renders exactly one of the three payload kinds. -/
theorem tick_arbitration (items : List Obs) (now : ℤ) (pc : PadresCache)
    (sfetch : Option (List Event)) (wst : WCacheState) (wfetch : Option WeatherCur)
    (extra : Details) (delay : Option ℤ) :
    (∀ b, pick_best items = some b →
      (tick items now pc sfetch wst wfetch extra delay).1 =
        .flight (ident_of extra b.fn) (map_delay_to_color delay) ∧
      (tick items now pc sfetch wst wfetch extra delay).2.2.2.1 = false ∧
      (tick items now pc sfetch wst wfetch extra delay).2.2.2.2 = false) ∧
    (pick_best items = none →
      (tick items now pc sfetch wst wfetch extra delay).2.2.2.1 = true ∧
      ((fetch_padres_score_lines now pc sfetch).1.have_game = true →
        is_sport (tick items now pc sfetch wst wfetch extra delay).1 = true ∧
        (tick items now pc sfetch wst wfetch extra delay).2.2.2.2 = false) ∧
      ((fetch_padres_score_lines now pc sfetch).1.have_game = false →
        is_weather (tick items now pc sfetch wst wfetch extra delay).1 = true ∧
        (tick items now pc sfetch wst wfetch extra delay).2.2.2.2 = true)) ∧
    (is_flight (tick items now pc sfetch wst wfetch extra delay).1).toNat +
      (is_sport (tick items now pc sfetch wst wfetch extra delay).1).toNat +
      (is_weather (tick items now pc sfetch wst wfetch extra delay).1).toNat = 1 := by
  cases hpb : pick_best items with
  | some b =>
    refine ⟨?_, ?_, ?_⟩
    · intro b2 hb2
      cases hb2
      simp [tick, hpb]
    · intro hnone
      exact absurd hnone (by simp)
    · simp [tick, hpb, is_flight, is_sport, is_weather]
  | none =>
    refine ⟨?_, ?_, ?_⟩
    · intro b2 hb2
      exact absurd hb2 (by simp)
    · intro _
      cases hg : (fetch_padres_score_lines now pc sfetch).1.have_game with
      | true =>
        refine ⟨?_, fun _ => ⟨?_, ?_⟩, fun hgf => ?_⟩ <;>
          simp [tick, hpb, hg, is_sport] at *
      | false =>
        refine ⟨?_, fun hgt => ?_, fun _ => ⟨?_, ?_⟩⟩ <;>
          simp [tick, hpb, hg, is_weather] at *
    · cases hg : (fetch_padres_score_lines now pc sfetch).1.have_game <;>
        simp [tick, hpb, hg, is_flight, is_sport, is_weather]

/-- Witness for `tick_arbitration`: an empty observation batch with a fresh
cached live game renders the Sport payload, queries the sports cache and
skips the weather source. -/
theorem tick_arbitration_witness :
    is_sport (tick [] 10 ⟨0, true, "SD 4", "LAD 3", "T5", WHITE, WHITE⟩ none
      ⟨0, "", WHITE, ""⟩ none ⟨none, none⟩ none).1 = true ∧
    (tick [] 10 ⟨0, true, "SD 4", "LAD 3", "T5", WHITE, WHITE⟩ none
      ⟨0, "", WHITE, ""⟩ none ⟨none, none⟩ none).2.2.2.1 = true ∧
    (tick [] 10 ⟨0, true, "SD 4", "LAD 3", "T5", WHITE, WHITE⟩ none
      ⟨0, "", WHITE, ""⟩ none ⟨none, none⟩ none).2.2.2.2 = false :=
  have h := (tick_arbitration [] 10 ⟨0, true, "SD 4", "LAD 3", "T5", WHITE, WHITE⟩ none
    ⟨0, "", WHITE, ""⟩ none ⟨none, none⟩ none).2.1 rfl
  ⟨(h.2.1 (by decide)).1, h.1, (h.2.1 (by decide)).2⟩

lemma ptsd_t_mem (lat lon aLat aLon bLat bLon : ℝ) :
    0 ≤ (point_to_segment_dist_m lat lon aLat aLon bLat bLon).2 ∧
    (point_to_segment_dist_m lat lon aLat aLon bLat bLon).2 ≤ 1 := by
  constructor <;> (simp only [point_to_segment_dist_m]; split)
  · simp
  · simp only
    exact le_max_left _ _
  · simp
  · simp only
    exact max_le (by norm_num) (min_le_left _ _)

lemma within_corridor_iff_dist (lat lon : ℝ) :
    within_corridor lat lon ↔
      (point_to_segment_dist_m lat lon P1_LAT P1_LON P2_LAT P2_LON).1 ≤
        CORRIDOR_HALF_MILES * 1609.344 := by
  have h := ptsd_t_mem lat lon P1_LAT P1_LON P2_LAT P2_LON
  unfold within_corridor
  exact ⟨fun hw => hw.2.2, fun hd => ⟨h.1, h.2, hd⟩⟩

lemma corridor_seg_len2_bounds :
    1e-6 < seg_len2 P1_LAT P1_LON P2_LAT P2_LON ∧
    seg_len2 P1_LAT P1_LON P2_LAT P2_LON ≤ 300000000 := by
  simp only [seg_len2, to_local_xy, P1_LAT, P1_LON, P2_LAT, P2_LON]
  set c := Real.cos (0.5 * (32.69079521369225 + 32.72663595133696) * Real.pi / 180) with hc
  have h1 : -1 ≤ c := by rw [hc]; exact Real.neg_one_le_cos _
  have h2 : c ≤ 1 := by rw [hc]; exact Real.cos_le_one _
  constructor <;> nlinarith [h1, h2, sq_nonneg c, sq_nonneg (1 + c), sq_nonneg (1 - c)]

lemma before_point_ptsd (aLat aLon bLat bLon : ℝ)
    (hv2 : 1e-6 < seg_len2 aLat aLon bLat bLon) :
    proj_t_raw (aLat - (bLat - aLat)/1000) (aLon - (bLon - aLon)/1000) aLat aLon bLat bLon < 0 ∧
    (point_to_segment_dist_m (aLat - (bLat - aLat)/1000) (aLon - (bLon - aLon)/1000)
        aLat aLon bLat bLon).1 = Real.sqrt (seg_len2 aLat aLon bLat bLon / 1000000) := by
  simp only [seg_len2, to_local_xy] at hv2
  simp only [proj_t_raw, point_to_segment_dist_m, seg_len2, to_local_xy]
  set c := Real.cos (0.5 * (aLat + bLat) * Real.pi / 180) with hc
  set vx := bLon * (111320.0 * c) - aLon * (111320.0 * c) with hvx
  set vy := bLat * 111320.0 - aLat * 111320.0 with hvy
  have hv2pos : 0 < vx * vx + vy * vy := lt_trans (by norm_num) hv2
  have hv2ne : vx * vx + vy * vy ≠ 0 := ne_of_gt hv2pos
  have hdot : ((aLon - (bLon - aLon) / 1000) * (111320.0 * c) - aLon * (111320.0 * c)) * vx +
      ((aLat - (bLat - aLat) / 1000) * 111320.0 - aLat * 111320.0) * vy =
      -((vx * vx + vy * vy)/1000) := by
    rw [hvx, hvy]; ring
  have hdiv : -((vx * vx + vy * vy)/1000) / (vx * vx + vy * vy) = -(1/1000 : ℝ) := by
    field_simp
    ring
  constructor
  · rw [hdot, hdiv]; norm_num
  · rw [if_neg (not_le.mpr hv2)]
    simp only
    rw [hdot, hdiv]
    rw [min_eq_right (by norm_num : -(1/1000 : ℝ) ≤ 1),
      max_eq_left (by norm_num : -(1/1000 : ℝ) ≤ 0)]
    congr 1
    rw [hvx, hvy]
    ring

lemma ptsd_at_first_endpoint (aLat aLon bLat bLon : ℝ) :
    point_to_segment_dist_m aLat aLon aLat aLon bLat bLon = (0, 0) := by
  simp only [point_to_segment_dist_m, to_local_xy]
  split
  · simp [sub_self, Real.sqrt_zero]
  · simp [sub_self, Real.sqrt_zero]

lemma seg_len2_comm (aLat aLon bLat bLon : ℝ) :
    seg_len2 bLat bLon aLat aLon = seg_len2 aLat aLon bLat bLon := by
  simp only [seg_len2, to_local_xy]
  rw [show (0.5 * (bLat + aLat)) = (0.5 * (aLat + bLat)) by ring]
  ring

lemma ptsd_at_second_endpoint (aLat aLon bLat bLon : ℝ)
    (hv2 : 1e-6 < seg_len2 aLat aLon bLat bLon) :
    (point_to_segment_dist_m bLat bLon aLat aLon bLat bLon).2 = 1 := by
  simp only [seg_len2, to_local_xy] at hv2
  simp only [point_to_segment_dist_m, to_local_xy]
  set c := Real.cos (0.5 * (aLat + bLat) * Real.pi / 180) with hc
  set vx := bLon * (111320.0 * c) - aLon * (111320.0 * c) with hvx
  set vy := bLat * 111320.0 - aLat * 111320.0 with hvy
  have hv2ne : vx * vx + vy * vy ≠ 0 := ne_of_gt (lt_trans (by norm_num) hv2)
  rw [if_neg (not_le.mpr hv2)]
  simp only
  rw [div_self hv2ne]
  norm_num

lemma clamp_one_sub (s : ℝ) : max 0 (min 1 (1 - s)) = 1 - max 0 (min 1 s) := by
  simp only [max_def, min_def]
  split_ifs <;> linarith

lemma proj_point_swap (px py ax ay bx b_y t : ℝ) :
    (px - (bx + (1 - t) * (ax - bx))) ^ 2 + (py - (b_y + (1 - t) * (ay - b_y))) ^ 2 =
    (px - (ax + t * (bx - ax))) ^ 2 + (py - (ay + t * (b_y - ay))) ^ 2 := by
  ring

lemma ptsd_swap (lat lon aLat aLon bLat bLon : ℝ)
    (hv2 : 1e-6 < seg_len2 aLat aLon bLat bLon) :
    (point_to_segment_dist_m lat lon bLat bLon aLat aLon).1 =
      (point_to_segment_dist_m lat lon aLat aLon bLat bLon).1 ∧
    (point_to_segment_dist_m lat lon bLat bLon aLat aLon).2 =
      1 - (point_to_segment_dist_m lat lon aLat aLon bLat bLon).2 := by
  simp only [seg_len2, to_local_xy] at hv2
  simp only [point_to_segment_dist_m, to_local_xy]
  rw [show (0.5 * (bLat + aLat)) = (0.5 * (aLat + bLat)) by ring]
  set c := Real.cos (0.5 * (aLat + bLat) * Real.pi / 180) with hc
  set px := lon * (111320.0 * c) with hpx
  set py := lat * 111320.0 with hpy
  set ax := aLon * (111320.0 * c) with hax
  set ay := aLat * 111320.0 with hay
  set bx := bLon * (111320.0 * c) with hbx
  set b_y := bLat * 111320.0 with hb_y
  have hv2' : 1e-6 < (bx - ax) * (bx - ax) + (b_y - ay) * (b_y - ay) := hv2
  have hv2ne : (bx - ax) * (bx - ax) + (b_y - ay) * (b_y - ay) ≠ 0 :=
    ne_of_gt (lt_trans (by norm_num) hv2')
  have hswap2 : (ax - bx) * (ax - bx) + (ay - b_y) * (ay - b_y) =
      (bx - ax) * (bx - ax) + (b_y - ay) * (b_y - ay) := by ring
  rw [hswap2]
  rw [if_neg (not_le.mpr hv2'), if_neg (not_le.mpr hv2')]
  have ht' : ((px - bx) * (ax - bx) + (py - b_y) * (ay - b_y)) /
      ((bx - ax) * (bx - ax) + (b_y - ay) * (b_y - ay)) =
      1 - ((px - ax) * (bx - ax) + (py - ay) * (b_y - ay)) /
        ((bx - ax) * (bx - ax) + (b_y - ay) * (b_y - ay)) := by
    field_simp
    ring
  simp only
  rw [ht', clamp_one_sub]
  constructor
  · congr 1
    rw [proj_point_swap]
  · rfl

lemma before_P1_facts :
    within_corridor (P1_LAT - (P2_LAT - P1_LAT)/1000) (P1_LON - (P2_LON - P1_LON)/1000) ∧
    0 < (point_to_segment_dist_m (P1_LAT - (P2_LAT - P1_LAT)/1000)
      (P1_LON - (P2_LON - P1_LON)/1000) P1_LAT P1_LON P2_LAT P2_LON).1 ∧
    proj_t_raw (P1_LAT - (P2_LAT - P1_LAT)/1000) (P1_LON - (P2_LON - P1_LON)/1000)
      P1_LAT P1_LON P2_LAT P2_LON < 0 := by
  obtain ⟨hv2, hub⟩ := corridor_seg_len2_bounds
  obtain ⟨ht, hd⟩ := before_point_ptsd P1_LAT P1_LON P2_LAT P2_LON hv2
  refine ⟨?_, ?_, ht⟩
  · rw [within_corridor_iff_dist, hd]
    have h1 : seg_len2 P1_LAT P1_LON P2_LAT P2_LON / 1000000 ≤
        (CORRIDOR_HALF_MILES * 1609.344) ^ 2 := by
      rw [CORRIDOR_HALF_MILES]
      nlinarith [hub]
    calc Real.sqrt (seg_len2 P1_LAT P1_LON P2_LAT P2_LON / 1000000)
        ≤ Real.sqrt ((CORRIDOR_HALF_MILES * 1609.344) ^ 2) := Real.sqrt_le_sqrt h1
      _ = CORRIDOR_HALF_MILES * 1609.344 := Real.sqrt_sq (by rw [CORRIDOR_HALF_MILES]; norm_num)
  · rw [hd]
    exact Real.sqrt_pos.mpr (div_pos (lt_trans (by norm_num) hv2) (by norm_num))

lemma P1_within : within_corridor P1_LAT P1_LON := by
  rw [within_corridor_iff_dist, ptsd_at_first_endpoint]
  rw [CORRIDOR_HALF_MILES]
  norm_num

/-- C9 counterexample: two distinct endpoints whose local separation is below
the degenerate-segment threshold (`v2 ≤ 1e-6`, here about 0.56 mm) make
`point_to_segment_dist_m` fall back to the straight-line distance to its
first argument, so swapping the endpoints changes the returned distance. -/
theorem dist_swap_counterexample :
    ¬ (((0 : ℝ), (0 : ℝ)) = ((0.000000005 : ℝ), (0 : ℝ))) ∧
    (point_to_segment_dist_m 1 0 0 0 0.000000005 0).1 ≠
      (point_to_segment_dist_m 1 0 0.000000005 0 0 0).1 := by
  constructor
  · intro h
    have h2 := congrArg Prod.fst h
    norm_num at h2
  · simp only [point_to_segment_dist_m, to_local_xy]
    rw [if_pos (by norm_num), if_pos (by norm_num)]
    simp only
    intro h
    rw [Real.sqrt_inj (by positivity) (by positivity)] at h
    norm_num at h

lemma qualifies_dist_le (o : Obs) (h : qualifies o) :
    obs_dist o ≤ CORRIDOR_HALF_MILES * 1609.344 := h.2.2.2

lemma qualifies_dist_lt_big (o : Obs) (h : qualifies o) : obs_dist o < 1e12 :=
  lt_of_le_of_lt (qualifies_dist_le o h) (by rw [CORRIDOR_HALF_MILES]; norm_num)

lemma pick_best_go_none : ∀ (l : List Obs) (best : Option Obs) (bd : ℝ),
    (∀ it ∈ l, ¬ qualifies it) → pick_best_go l best bd = best := by
  intro l
  induction l with
  | nil => intro best bd _; rfl
  | cons it rest ih =>
    intro best bd h
    simp only [pick_best_go]
    by_cases h1 : altitude_ok it.alt_ft
    · rw [if_pos h1]
      by_cases h2 : within_corridor it.lat it.lon
      · exact absurd ⟨h1, h2⟩ (h it (List.mem_cons_self it rest))
      · rw [if_neg h2]
        exact ih best bd (fun x hx => h x (List.mem_cons_of_mem _ hx))
    · rw [if_neg h1]
      exact ih best bd (fun x hx => h x (List.mem_cons_of_mem _ hx))

lemma pick_best_go_spec : ∀ (l : List Obs) (best : Option Obs) (bd : ℝ),
    (∀ b0, best = some b0 → qualifies b0 ∧ obs_dist b0 = bd) →
    ∀ r, pick_best_go l best bd = some r →
      qualifies r ∧ obs_dist r ≤ bd ∧
      (∀ it ∈ l, qualifies it → obs_dist r ≤ obs_dist it) ∧
      (r ∈ l ∨ best = some r) := by
  intro l
  induction l with
  | nil =>
    intro best bd hinv r h
    obtain ⟨hq, hd⟩ := hinv r h
    exact ⟨hq, le_of_eq hd, by simp, Or.inr h⟩
  | cons it rest ih =>
    intro best bd hinv r h
    simp only [pick_best_go] at h
    by_cases h1 : altitude_ok it.alt_ft
    · rw [if_pos h1] at h
      by_cases h2 : within_corridor it.lat it.lon
      · rw [if_pos h2] at h
        by_cases h3 : obs_dist it < bd
        · rw [if_pos h3] at h
          obtain ⟨hq, hd, hmin, hmem⟩ := ih (some it) (obs_dist it)
            (fun b0 hb0 => by
              injection hb0 with hb0
              subst hb0
              exact ⟨⟨h1, h2⟩, rfl⟩) r h
          refine ⟨hq, le_trans hd (le_of_lt h3), ?_, ?_⟩
          · intro x hx hqx
            rcases List.mem_cons.mp hx with rfl | hx2
            · exact hd
            · exact hmin x hx2 hqx
          · rcases hmem with hm | hm
            · exact Or.inl (List.mem_cons_of_mem _ hm)
            · injection hm with hm
              subst hm
              exact Or.inl (List.mem_cons_self it rest)
        · rw [if_neg h3] at h
          obtain ⟨hq, hd, hmin, hmem⟩ := ih best bd hinv r h
          refine ⟨hq, hd, ?_, ?_⟩
          · intro x hx hqx
            rcases List.mem_cons.mp hx with rfl | hx2
            · exact le_trans hd (not_lt.mp h3)
            · exact hmin x hx2 hqx
          · rcases hmem with hm | hm
            · exact Or.inl (List.mem_cons_of_mem _ hm)
            · exact Or.inr hm
      · rw [if_neg h2] at h
        obtain ⟨hq, hd, hmin, hmem⟩ := ih best bd hinv r h
        refine ⟨hq, hd, ?_, ?_⟩
        · intro x hx hqx
          rcases List.mem_cons.mp hx with rfl | hx2
          · exact absurd hqx (fun hq2 => h2 hq2.2)
          · exact hmin x hx2 hqx
        · rcases hmem with hm | hm
          · exact Or.inl (List.mem_cons_of_mem _ hm)
          · exact Or.inr hm
    · rw [if_neg h1] at h
      obtain ⟨hq, hd, hmin, hmem⟩ := ih best bd hinv r h
      refine ⟨hq, hd, ?_, ?_⟩
      · intro x hx hqx
        rcases List.mem_cons.mp hx with rfl | hx2
        · exact absurd hqx (fun hq2 => h1 hq2.1)
        · exact hmin x hx2 hqx
      · rcases hmem with hm | hm
        · exact Or.inl (List.mem_cons_of_mem _ hm)
        · exact Or.inr hm

/-- The returned distance is a square root in both branches, hence
nonnegative. -/
lemma ptsd_dist_nonneg (lat lon aLat aLon bLat bLon : ℝ) :
    0 ≤ (point_to_segment_dist_m lat lon aLat aLon bLat bLon).1 := by
  simp only [point_to_segment_dist_m]
  split
  · simp only
    exact Real.sqrt_nonneg _
  · simp only
    exact Real.sqrt_nonneg _

/-- The scan keeps the current best when every remaining qualifier is no
closer than it. -/
lemma pick_best_go_keep : ∀ (l : List Obs) (r : Obs),
    (∀ it ∈ l, qualifies it → obs_dist r ≤ obs_dist it) →
    pick_best_go l (some r) (obs_dist r) = some r := by
  intro l
  induction l with
  | nil => intro r _; rfl
  | cons it rest ih =>
    intro r h
    simp only [pick_best_go]
    by_cases h1 : altitude_ok it.alt_ft
    · rw [if_pos h1]
      by_cases h2 : within_corridor it.lat it.lon
      · rw [if_pos h2,
          if_neg (not_lt.mpr (h it (List.mem_cons_self it rest) ⟨h1, h2⟩))]
        exact ih r (fun x hx hq => h x (List.mem_cons_of_mem _ hx) hq)
      · rw [if_neg h2]
        exact ih r (fun x hx hq => h x (List.mem_cons_of_mem _ hx) hq)
    · rw [if_neg h1]
      exact ih r (fun x hx hq => h x (List.mem_cons_of_mem _ hx) hq)

/-- The scan yields a result whenever the running best is already set or some
qualifier in the remaining list beats the running bound. -/
lemma pick_best_go_some : ∀ (l : List Obs) (best : Option Obs) (bd : ℝ),
    (best = none → ∃ it ∈ l, qualifies it ∧ obs_dist it < bd) →
    ∃ r, pick_best_go l best bd = some r := by
  intro l
  induction l with
  | nil =>
    intro best bd h
    cases best with
    | none =>
      obtain ⟨it, hmem, _⟩ := h rfl
      exact absurd hmem (List.not_mem_nil it)
    | some b => exact ⟨b, rfl⟩
  | cons it rest ih =>
    intro best bd h
    simp only [pick_best_go]
    by_cases h1 : altitude_ok it.alt_ft
    · rw [if_pos h1]
      by_cases h2 : within_corridor it.lat it.lon
      · rw [if_pos h2]
        by_cases h3 : obs_dist it < bd
        · rw [if_pos h3]
          exact ih (some it) (obs_dist it) (fun hn => Option.noConfusion hn)
        · rw [if_neg h3]
          refine ih best bd (fun hn => ?_)
          obtain ⟨x, hx, hqx, hdx⟩ := h hn
          rcases List.mem_cons.mp hx with rfl | hx2
          · exact absurd hdx h3
          · exact ⟨x, hx2, hqx, hdx⟩
      · rw [if_neg h2]
        refine ih best bd (fun hn => ?_)
        obtain ⟨x, hx, hqx, hdx⟩ := h hn
        rcases List.mem_cons.mp hx with rfl | hx2
        · exact absurd hqx.2 h2
        · exact ⟨x, hx2, hqx, hdx⟩
    · rw [if_neg h1]
      refine ih best bd (fun hn => ?_)
      obtain ⟨x, hx, hqx, hdx⟩ := h hn
      rcases List.mem_cons.mp hx with rfl | hx2
      · exact absurd hqx.1 h1
      · exact ⟨x, hx2, hqx, hdx⟩

/-- A qualifier strictly closer than every qualifier before it and no farther
than every qualifier after it wins the whole scan, whatever the incoming
state, provided it beats the incoming bound. -/
lemma pick_best_go_first_min : ∀ (l1 : List Obs) (best : Option Obs) (bd : ℝ)
    (r : Obs) (l2 : List Obs),
    qualifies r → obs_dist r < bd →
    (∀ it ∈ l1, qualifies it → obs_dist r < obs_dist it) →
    (∀ it ∈ l2, qualifies it → obs_dist r ≤ obs_dist it) →
    pick_best_go (l1 ++ r :: l2) best bd = some r := by
  intro l1
  induction l1 with
  | nil =>
    intro best bd r l2 hqr hbd _ h2
    simp only [List.nil_append, pick_best_go]
    rw [if_pos hqr.1, if_pos hqr.2, if_pos hbd]
    exact pick_best_go_keep l2 r h2
  | cons it l1x ih =>
    intro best bd r l2 hqr hbd h1 h2
    simp only [List.cons_append, pick_best_go]
    by_cases ha : altitude_ok it.alt_ft
    · rw [if_pos ha]
      by_cases hw : within_corridor it.lat it.lon
      · rw [if_pos hw]
        by_cases hd : obs_dist it < bd
        · rw [if_pos hd]
          exact ih (some it) (obs_dist it) r l2 hqr
            (h1 it (List.mem_cons_self it l1x) ⟨ha, hw⟩)
            (fun x hx hq => h1 x (List.mem_cons_of_mem _ hx) hq) h2
        · rw [if_neg hd]
          exact ih best bd r l2 hqr hbd
            (fun x hx hq => h1 x (List.mem_cons_of_mem _ hx) hq) h2
      · rw [if_neg hw]
        exact ih best bd r l2 hqr hbd
          (fun x hx hq => h1 x (List.mem_cons_of_mem _ hx) hq) h2
    · rw [if_neg ha]
      exact ih best bd r l2 hqr hbd
        (fun x hx hq => h1 x (List.mem_cons_of_mem _ hx) hq) h2

/-- C4: `pick_best` drops observations failing `altitude_ok` or
`within_corridor` and returns the remaining observation of minimal distance
to the corridor centerline (the first one on an exact tie).  It returns
nothing on an empty or fully-filtered list; any result is a qualifier of
minimal distance; whenever any qualifier exists, a result is returned; and,
for every decomposition of the input around a qualifier that is strictly
closer than all earlier qualifiers and no farther than all later ones, that
qualifier — the first minimal one — is returned.  The singleton,
closer-of-two and first-of-a-tied-pair conjuncts are instances kept
explicit. -/
theorem pick_best_spec :
    pick_best [] = none ∧
    (∀ items : List Obs, (∀ it ∈ items, ¬ qualifies it) → pick_best items = none) ∧
    (∀ (items : List Obs) (r : Obs), pick_best items = some r →
      r ∈ items ∧ qualifies r ∧ ∀ it ∈ items, qualifies it → obs_dist r ≤ obs_dist it) ∧
    (∀ o : Obs, qualifies o → pick_best [o] = some o) ∧
    (∀ o1 o2 : Obs, qualifies o1 → qualifies o2 → obs_dist o2 < obs_dist o1 →
      pick_best [o1, o2] = some o2) ∧
    (∀ o1 o2 : Obs, qualifies o1 → qualifies o2 → obs_dist o1 = obs_dist o2 →
      pick_best [o1, o2] = some o1) ∧
    (∀ items : List Obs, (∃ it ∈ items, qualifies it) →
      ∃ r, pick_best items = some r) ∧
    (∀ (l1 : List Obs) (r : Obs) (l2 : List Obs), qualifies r →
      (∀ it ∈ l1, qualifies it → obs_dist r < obs_dist it) →
      (∀ it ∈ l2, qualifies it → obs_dist r ≤ obs_dist it) →
      pick_best (l1 ++ r :: l2) = some r) := by
  refine ⟨rfl, ?_, ?_, ?_, ?_, ?_, ?_, ?_⟩
  · intro items h
    exact pick_best_go_none items none 1e12 h
  · intro items r h
    obtain ⟨hq, _, hmin, hmem⟩ :=
      pick_best_go_spec items none 1e12 (fun b0 hb0 => Option.noConfusion hb0) r h
    rcases hmem with hm | hm
    · exact ⟨hm, hq, hmin⟩
    · exact Option.noConfusion hm
  · intro o hq
    simp only [pick_best, pick_best_go]
    rw [if_pos hq.1, if_pos hq.2, if_pos (qualifies_dist_lt_big o hq)]
  · intro o1 o2 hq1 hq2 hlt
    simp only [pick_best, pick_best_go]
    rw [if_pos hq1.1, if_pos hq1.2, if_pos (qualifies_dist_lt_big o1 hq1),
      if_pos hq2.1, if_pos hq2.2, if_pos hlt]
  · intro o1 o2 hq1 hq2 heq
    simp only [pick_best, pick_best_go]
    rw [if_pos hq1.1, if_pos hq1.2, if_pos (qualifies_dist_lt_big o1 hq1),
      if_pos hq2.1, if_pos hq2.2, if_neg (heq ▸ lt_irrefl (obs_dist o1))]
  · intro items h
    obtain ⟨it, hmem, hq⟩ := h
    exact pick_best_go_some items none 1e12
      (fun _ => ⟨it, hmem, hq, qualifies_dist_lt_big it hq⟩)
  · intro l1 r l2 hqr h1 h2
    exact pick_best_go_first_min l1 none 1e12 r l2 hqr
      (qualifies_dist_lt_big r hqr) h1 h2

/-- Witness for `pick_best_spec`: of two in-corridor, in-altitude
observations — one slightly before endpoint `P1`, one exactly at `P1` — the
one at `P1` (strictly smaller distance) is picked; and in a three-observation
batch (the feed's `limit=3` shape) with the `P1` observation in the middle,
it is still the one picked. -/
theorem pick_best_spec_witness :
    pick_best [⟨P1_LAT - (P2_LAT - P1_LAT)/1000, P1_LON - (P2_LON - P1_LON)/1000,
        some 1000, "AAL1", "f1"⟩,
      ⟨P1_LAT, P1_LON, some 1500, "UAL2", "f2"⟩] =
      some ⟨P1_LAT, P1_LON, some 1500, "UAL2", "f2"⟩ ∧
    pick_best [⟨P1_LAT - (P2_LAT - P1_LAT)/1000, P1_LON - (P2_LON - P1_LON)/1000,
        some 1000, "AAL1", "f1"⟩,
      ⟨P1_LAT, P1_LON, some 1500, "UAL2", "f2"⟩,
      ⟨P1_LAT - (P2_LAT - P1_LAT)/1000, P1_LON - (P2_LON - P1_LON)/1000,
        some 2000, "AAL3", "f3"⟩] =
      some ⟨P1_LAT, P1_LON, some 1500, "UAL2", "f2"⟩ := by
  have hq1 : qualifies ⟨P1_LAT - (P2_LAT - P1_LAT)/1000, P1_LON - (P2_LON - P1_LON)/1000,
      some 1000, "AAL1", "f1"⟩ :=
    ⟨⟨by rw [ALT_FT_MIN]; norm_num, by rw [ALT_FT_MAX]; norm_num⟩, before_P1_facts.1⟩
  have hq2 : qualifies ⟨P1_LAT, P1_LON, some 1500, "UAL2", "f2"⟩ :=
    ⟨⟨by rw [ALT_FT_MIN]; norm_num, by rw [ALT_FT_MAX]; norm_num⟩, P1_within⟩
  have hd2 : obs_dist ⟨P1_LAT, P1_LON, some 1500, "UAL2", "f2"⟩ = 0 := by
    show (point_to_segment_dist_m P1_LAT P1_LON P1_LAT P1_LON P2_LAT P2_LON).1 = 0
    rw [ptsd_at_first_endpoint]
  constructor
  · exact pick_best_spec.2.2.2.2.1 _ _ hq1 hq2 (by rw [hd2]; exact before_P1_facts.2.1)
  · exact pick_best_spec.2.2.2.2.2.2.2
      [⟨P1_LAT - (P2_LAT - P1_LAT)/1000, P1_LON - (P2_LON - P1_LON)/1000,
        some 1000, "AAL1", "f1"⟩]
      ⟨P1_LAT, P1_LON, some 1500, "UAL2", "f2"⟩
      [⟨P1_LAT - (P2_LAT - P1_LAT)/1000, P1_LON - (P2_LON - P1_LON)/1000,
        some 2000, "AAL3", "f3"⟩]
      hq2
      (fun x hx _ => by
        obtain rfl := List.mem_singleton.mp hx
        rw [hd2]
        exact before_P1_facts.2.1)
      (fun x hx _ => by
        obtain rfl := List.mem_singleton.mp hx
        rw [hd2]
        exact ptsd_dist_nonneg _ _ _ _ _ _)

lemma seg01_big : 1e-6 < seg_len2 0 0 1 0 := by
  simp only [seg_len2, to_local_xy]
  norm_num


/-- C2 counterexample: the point one-thousandth of the segment length before
endpoint `P1` has unclamped projection parameter `t < 0`, yet
`within_corridor` returns true for it — the claim's exclusion of `t < 0`
points fails on the code, because the returned `t` is already clamped. -/
theorem corridor_t_check_counterexample :
    proj_t_raw (P1_LAT - (P2_LAT - P1_LAT)/1000) (P1_LON - (P2_LON - P1_LON)/1000)
      P1_LAT P1_LON P2_LAT P2_LON < 0 ∧
    within_corridor (P1_LAT - (P2_LAT - P1_LAT)/1000) (P1_LON - (P2_LON - P1_LON)/1000) :=
  ⟨before_P1_facts.2.2, before_P1_facts.1⟩

/-- C2 (amended): the `t` returned by `point_to_segment_dist_m` is always in
`[0, 1]` (it is clamped), so the `0 ≤ t ≤ 1` test in `within_corridor` is
vacuous and `within_corridor` holds exactly when the distance to the nearest
point of the segment is at most the half-width in meters.  In particular every
point strictly between the endpoints within the half-width is accepted, and
points beyond the endpoints are also accepted whenever their distance to the
nearest endpoint is within the half-width. -/
theorem within_corridor_characterization :
    (∀ lat lon : ℝ,
      0 ≤ (point_to_segment_dist_m lat lon P1_LAT P1_LON P2_LAT P2_LON).2 ∧
      (point_to_segment_dist_m lat lon P1_LAT P1_LON P2_LAT P2_LON).2 ≤ 1) ∧
    (∀ lat lon : ℝ, within_corridor lat lon ↔
      (point_to_segment_dist_m lat lon P1_LAT P1_LON P2_LAT P2_LON).1 ≤
        CORRIDOR_HALF_MILES * 1609.344) :=
  ⟨fun lat lon => ptsd_t_mem lat lon P1_LAT P1_LON P2_LAT P2_LON, within_corridor_iff_dist⟩

/-- C9 (amended): whenever the segment is non-degenerate (squared local
length above the `1e-6` threshold), swapping the endpoint labels leaves the
returned distance unchanged; the projection parameter is `0` at the first
endpoint (unconditionally) and `1` at the second endpoint.  Degenerate
distinct endpoint pairs below the threshold are the exception recorded by the
counterexample. -/
theorem dist_swap_and_endpoints :
    (∀ lat lon aLat aLon bLat bLon : ℝ, 1e-6 < seg_len2 aLat aLon bLat bLon →
      (point_to_segment_dist_m lat lon bLat bLon aLat aLon).1 =
        (point_to_segment_dist_m lat lon aLat aLon bLat bLon).1) ∧
    (∀ aLat aLon bLat bLon : ℝ,
      (point_to_segment_dist_m aLat aLon aLat aLon bLat bLon).2 = 0) ∧
    (∀ aLat aLon bLat bLon : ℝ, 1e-6 < seg_len2 aLat aLon bLat bLon →
      (point_to_segment_dist_m bLat bLon aLat aLon bLat bLon).2 = 1) := by
  refine ⟨fun lat lon aLat aLon bLat bLon h => (ptsd_swap lat lon aLat aLon bLat bLon h).1,
    fun aLat aLon bLat bLon => ?_, ptsd_at_second_endpoint⟩
  rw [ptsd_at_first_endpoint]

/-- Witness for `dist_swap_and_endpoints` on the unit segment from `(0,0)` to
`(1,0)` with probe point `(2,5)`. -/
theorem dist_swap_and_endpoints_witness :
    (point_to_segment_dist_m 2 5 1 0 0 0).1 = (point_to_segment_dist_m 2 5 0 0 1 0).1 ∧
    (point_to_segment_dist_m 0 0 0 0 1 0).2 = 0 ∧
    (point_to_segment_dist_m 1 0 0 0 1 0).2 = 1 :=
  ⟨dist_swap_and_endpoints.1 2 5 0 0 1 0 seg01_big,
   dist_swap_and_endpoints.2.1 0 0 1 0,
   dist_swap_and_endpoints.2.2 0 0 1 0 seg01_big⟩

end KSAN

end
